import Mathlib

/-!
# DASH content steering server: configuration, DCSM generation, MPD augmentation

A shallow embedding of `steering_server.go`.

* Go structs become Lean structures with the same field names.
* The package-level variables the handlers read and write (`dcsm_ttl`,
  `content_steering_server_url`, `serviceLocationMap`) are gathered in the
  record `Globals`; a Go function that assigns to them becomes a function that
  takes the record and returns the new one next to its Go return value.
* Go `string` is `String` (the code only tests strings for emptiness and
  concatenates them), Go `int` is `Int` (the code only compares a TTL with
  zero, there is no arithmetic that could overflow), a slice is a `List` and a
  nil slice is the empty list.
* A `[]byte` result that may be `nil` is an `Option`: `none` is `nil`.
* The encoders and the decoder of the Go standard library (`json.Marshal`,
  `xml.Unmarshal`, `xml.MarshalIndent`) are parameters of the functions that
  call them; `fmt.Println` output is not modelled.
-/

namespace SteeringServer

/-! ## Data model -/

/-- Go `xml.Name`. -/
structure xmlName where
  Space : String
  Local : String
deriving DecidableEq, Repr

/-- Go `dashPeriodXml`. -/
structure dashPeriodXml where
  XMLName : xmlName
  Value : String
deriving DecidableEq, Repr

/-- Go `ContentSteeringXml`. -/
structure ContentSteeringXml where
  XMLName : xmlName
  Value : String
  DefaultServiceLocation : String
  QueryBeforeStart : String
  ProxyServerURL : String
deriving DecidableEq, Repr

/-- Go `BaseURLXml`. -/
structure BaseURLXml where
  XMLName : xmlName
  Value : String
  ServiceLocation : String
deriving DecidableEq, Repr

/-- Go `mpdXml`, the parsed MPD document. -/
structure mpdXml where
  XMLName : xmlName
  MediaPresentationDuration : String
  MinBufferTime : String
  Profiles : String
  Mpd_type : String
  Xmlns : String
  Xmlns_xsi : String
  Xsi_schemaLocation : String
  BaseURLs : List BaseURLXml
  ContentSteering : ContentSteeringXml
  Periods : List dashPeriodXml
deriving DecidableEq, Repr

/-- Go `dcsmSpec`, the steering manifest object (table 6.3.1 of the DASH-IF
content steering specification). -/
structure dcsmSpec where
  VERSION : Int
  TTL : Int
  RELOAD_URI : String
  SERVICE_LOCATION_PRIORITY : List String
deriving DecidableEq, Repr

/-- Go `serviceLocationEntrySpec`. -/
structure serviceLocationEntrySpec where
  ServiceLocationId : String
  ServiceLocationUri : String
deriving DecidableEq, Repr

/-- Go `contentSteeringConfigSpec`, a submitted configuration. -/
structure contentSteeringConfigSpec where
  TTL : Int
  ReloadUri : String
  ServiceLocations : List serviceLocationEntrySpec
deriving DecidableEq, Repr

/-! ## Package-level constants and variables -/

def server_ip : String := "localhost"

def server_port : String := "2210"

def server_addr : String := server_ip ++ ":" ++ server_port

def session_id_query_param : String := "sessionId"

def DCSM_VERSION : Int := 1

/-- The package-level variables that hold the live configuration. -/
structure Globals where
  dcsm_ttl : Int
  content_steering_server_url : String
  serviceLocationMap : List serviceLocationEntrySpec
deriving DecidableEq, Repr

/-- The values the variables have when the process starts: `dcsm_ttl = 10`,
`content_steering_server_url = "http://" + server_addr + "/dash.dcsm"` and a nil
`serviceLocationMap`. -/
def initialGlobals : Globals :=
  { dcsm_ttl := 10
    content_steering_server_url := "http://" ++ server_addr ++ "/dash.dcsm"
    serviceLocationMap := [] }

/-! ## Operations -/

/-- Go `getBaseUrls`: `*base_urls = serviceLocationMap`. -/
def getBaseUrls (g : Globals) : List serviceLocationEntrySpec :=
  g.serviceLocationMap

/-- Go `addContentSteeringInfo`: three assignments through the pointer. -/
def addContentSteeringInfo (contentSteering : ContentSteeringXml)
    (steering_server_url : String) (defaultServiceLocation : String) :
    ContentSteeringXml :=
  { contentSteering with
    Value := steering_server_url
    DefaultServiceLocation := defaultServiceLocation
    QueryBeforeStart := "true" }

/-- The loop of `addContentSteeringInfoToMpd` that appends one `BaseURLXml` per
table entry to `mpd_xml.BaseURLs`. -/
def appendBaseUrls (mpd_xml : mpdXml) (base_urls : List serviceLocationEntrySpec) :
    mpdXml :=
  base_urls.foldl
    (fun m sl_entry =>
      let newBaseUrl : BaseURLXml :=
        { XMLName := { Space := "", Local := "" }
          ServiceLocation := sl_entry.ServiceLocationId
          Value := sl_entry.ServiceLocationUri }
      { m with BaseURLs := m.BaseURLs ++ [newBaseUrl] })
    mpd_xml

/-- Go `addContentSteeringInfoToMpd`. `unmarshal` stands for `xml.Unmarshal`
into an `mpdXml` (`none` when it reports an error) and `marshalIndent` for
`xml.MarshalIndent` (`none` when it reports an error, in which case the Go
function returns the nil `output`). -/
def addContentSteeringInfoToMpd {α β : Type} (unmarshal : α → Option mpdXml)
    (marshalIndent : mpdXml → Option β) (g : Globals) (mpdBytes : α) : Option β :=
  match unmarshal mpdBytes with
  | none => none
  | some mpd_xml =>
    let base_urls := getBaseUrls g
    match base_urls with
    | [] => none
    | first :: _ =>
      let default_service_loc := first.ServiceLocationId
      let mpd_xml := appendBaseUrls mpd_xml base_urls
      let mpd_xml :=
        { mpd_xml with
          ContentSteering :=
            addContentSteeringInfo mpd_xml.ContentSteering
              g.content_steering_server_url default_service_loc }
      marshalIndent mpd_xml

/-- Go `generateDcsm`. `marshal` stands for `json.Marshal` on a `dcsmSpec`,
which cannot fail on a record of two integers, a string and a string slice. The
`*http.Request` argument is not used by the Go body and is left out. -/
def generateDcsm {β : Type} (marshal : dcsmSpec → β) (g : Globals)
    (sessionId_query_param : String) (pathway_query_param : String)
    (throughput_query_param : String) : Option β :=
  let reloadUri :=
    g.content_steering_server_url ++ "?" ++ session_id_query_param ++ "=" ++
      sessionId_query_param
  let dcsm : dcsmSpec :=
    { VERSION := DCSM_VERSION
      TTL := g.dcsm_ttl
      RELOAD_URI := reloadUri
      SERVICE_LOCATION_PRIORITY := [] }
  let base_urls := getBaseUrls g
  if base_urls.length = 0 then
    none
  else
    let dcsm :=
      base_urls.foldl
        (fun d sl_entry =>
          { d with
            SERVICE_LOCATION_PRIORITY :=
              d.SERVICE_LOCATION_PRIORITY ++ [sl_entry.ServiceLocationId] })
        dcsm
    some (marshal dcsm)

/-- The `for` loop of `updateDefaultServiceLocationPriority` over the entries
still to visit: an entry with an empty id or uri restores the saved table and
returns the reason, any other entry is appended to `serviceLocationMap`; when
the entries are exhausted the function returns `""`. -/
def updateLoop (serviceLocationMap_old : List serviceLocationEntrySpec) :
    List serviceLocationEntrySpec → Globals → String × Globals
  | [], g => ("", g)
  | sl :: rest, g =>
    if sl.ServiceLocationId = "" then
      ("Empty ServiceLocation", { g with serviceLocationMap := serviceLocationMap_old })
    else if sl.ServiceLocationUri = "" then
      ("Empty ServiceLocationUri", { g with serviceLocationMap := serviceLocationMap_old })
    else
      let new_sl := sl
      updateLoop serviceLocationMap_old rest
        { g with serviceLocationMap := g.serviceLocationMap ++ [new_sl] }

/-- Go `updateDefaultServiceLocationPriority`: save the table, set it to nil,
run the loop. -/
def updateDefaultServiceLocationPriority (slm : contentSteeringConfigSpec)
    (g : Globals) : String × Globals :=
  let serviceLocationMap_old := g.serviceLocationMap
  let g := { g with serviceLocationMap := [] }
  updateLoop serviceLocationMap_old slm.ServiceLocations g

/-- Go `updateDefaultContentSteeringConfig`. -/
def updateDefaultContentSteeringConfig (csc : contentSteeringConfigSpec)
    (g : Globals) : String × Globals :=
  if csc.ReloadUri.length = 0 then
    ("Empty RELOAD-URI config", g)
  else if csc.TTL ≤ 0 then
    ("Non-positive TTL value", g)
  else
    let g := { g with content_steering_server_url := csc.ReloadUri }
    let g := { g with dcsm_ttl := csc.TTL }
    updateDefaultServiceLocationPriority csc g

/-- The live states the server can be in: the start state, and any state that a
call of `updateDefaultContentSteeringConfig` (accepted or rejected) leaves. -/
inductive Reachable : Globals → Prop
  | init : Reachable initialGlobals
  | step (g : Globals) (csc : contentSteeringConfigSpec) :
      Reachable g → Reachable (updateDefaultContentSteeringConfig csc g).2

/-- An entry the validation loop rejects: its id or its uri is empty. -/
def offending (sl : serviceLocationEntrySpec) : Prop :=
  sl.ServiceLocationId = "" ∨ sl.ServiceLocationUri = ""

instance : DecidablePred offending := fun sl => by
  unfold offending; exact inferInstance

/-- The reason the loop returns at an offending entry. -/
def rejection (sl : serviceLocationEntrySpec) : String :=
  if sl.ServiceLocationId = "" then "Empty ServiceLocation" else "Empty ServiceLocationUri"

/-! ## Sample inputs -/

/-- The sample configuration given in the comment above the package variables. -/
def sampleConfig : contentSteeringConfigSpec :=
  { TTL := 100
    ReloadUri := "http://localhost:2210/dash.dcsm"
    ServiceLocations :=
      [ { ServiceLocationId := "baseurl_2"
          ServiceLocationUri := "https://bzhang-zencoder-test.s3.us-west-2.amazonaws.com/bbb2/" },
        { ServiceLocationId := "baseurl_1"
          ServiceLocationUri := "https://bzhang-zencoder-test.s3.us-west-2.amazonaws.com/bbb/" } ] }

/-- The live state once `sampleConfig` has been installed. -/
def sampleGlobals : Globals :=
  { dcsm_ttl := 100
    content_steering_server_url := "http://localhost:2210/dash.dcsm"
    serviceLocationMap := sampleConfig.ServiceLocations }

/-- A configuration with good parameters and no service location. -/
def emptyListConfig : contentSteeringConfigSpec :=
  { TTL := 100, ReloadUri := "http://host/dash.dcsm", ServiceLocations := [] }

/-- A configuration with good parameters whose second entry has an empty id. -/
def badEntryConfig : contentSteeringConfigSpec :=
  { TTL := 5
    ReloadUri := "http://other/dash.dcsm"
    ServiceLocations :=
      [ { ServiceLocationId := "cdn_a", ServiceLocationUri := "https://cdn-a/" },
        { ServiceLocationId := "", ServiceLocationUri := "https://cdn-b/" },
        { ServiceLocationId := "cdn_c", ServiceLocationUri := "" } ] }

/-- A parsed document with one `BaseURL` and one `Period`. -/
def sampleMpd : mpdXml :=
  { XMLName := { Space := "urn:mpeg:dash:schema:mpd:2011", Local := "MPD" }
    MediaPresentationDuration := "PT634.566S"
    MinBufferTime := "PT2.00S"
    Profiles := "urn:mpeg:dash:profile:isoff-on-demand:2011"
    Mpd_type := "static"
    Xmlns := "urn:mpeg:dash:schema:mpd:2011"
    Xmlns_xsi := ""
    Xsi_schemaLocation := ""
    BaseURLs :=
      [ { XMLName := { Space := "urn:mpeg:dash:schema:mpd:2011", Local := "BaseURL" }
          Value := "https://origin/"
          ServiceLocation := "" } ]
    ContentSteering :=
      { XMLName := { Space := "", Local := "" }
        Value := ""
        DefaultServiceLocation := ""
        QueryBeforeStart := ""
        ProxyServerURL := "" }
    Periods :=
      [ { XMLName := { Space := "urn:mpeg:dash:schema:mpd:2011", Local := "Period" }
          Value := "<AdaptationSet/>" } ] }

/-! ## Auxiliary lemmas -/

theorem length_eq_zero_iff (s : String) : s.length = 0 ↔ s = "" := by
  constructor
  · intro h
    apply String.ext
    exact List.length_eq_zero.mp h
  · intro h
    subst h
    rfl

theorem query_separator : ("?" ++ session_id_query_param ++ "=" : String) = "?sessionId=" := by
  decide

theorem reloadUri_eq (url sid : String) :
    url ++ "?" ++ session_id_query_param ++ "=" ++ sid = url ++ "?sessionId=" ++ sid := by
  rw [← query_separator]
  simp only [String.append_assoc]

/-- The id-collecting loop of `generateDcsm` appends the ids of the entries, in
order, to the list collected so far and touches no other field. -/
theorem collect_ids (l : List serviceLocationEntrySpec) (d : dcsmSpec) :
    l.foldl
        (fun d sl_entry =>
          { d with
            SERVICE_LOCATION_PRIORITY :=
              d.SERVICE_LOCATION_PRIORITY ++ [sl_entry.ServiceLocationId] })
        d
      = { d with
          SERVICE_LOCATION_PRIORITY :=
            d.SERVICE_LOCATION_PRIORITY ++ l.map (fun e => e.ServiceLocationId) } := by
  induction l generalizing d with
  | nil => simp
  | cons e l ih => simp [List.foldl, ih]

/-- What `generateDcsm` returns on a non-empty table. -/
theorem generateDcsm_of_ne_nil {β : Type} (marshal : dcsmSpec → β) (g : Globals)
    (sid pw tp : String) (h : g.serviceLocationMap ≠ []) :
    generateDcsm marshal g sid pw tp
      = some (marshal
          { VERSION := 1
            TTL := g.dcsm_ttl
            RELOAD_URI := g.content_steering_server_url ++ "?sessionId=" ++ sid
            SERVICE_LOCATION_PRIORITY :=
              g.serviceLocationMap.map (fun e => e.ServiceLocationId) }) := by
  have hlen : ¬ g.serviceLocationMap.length = 0 := by
    intro h0
    exact h (List.length_eq_zero.mp h0)
  simp only [generateDcsm, getBaseUrls, hlen, if_false, collect_ids, List.nil_append,
    reloadUri_eq, DCSM_VERSION]

/-- What `generateDcsm` returns on an empty table. -/
theorem generateDcsm_of_nil {β : Type} (marshal : dcsmSpec → β) (g : Globals)
    (sid pw tp : String) (h : g.serviceLocationMap = []) :
    generateDcsm marshal g sid pw tp = none := by
  simp [generateDcsm, getBaseUrls, h]

/-- The loop of `appendBaseUrls` appends one element per entry, in order, and
touches no other field of the document. -/
theorem appendBaseUrls_eq (l : List serviceLocationEntrySpec) (m : mpdXml) :
    appendBaseUrls m l
      = { m with
          BaseURLs :=
            m.BaseURLs ++
              l.map (fun e =>
                ({ XMLName := { Space := "", Local := "" }
                   Value := e.ServiceLocationUri
                   ServiceLocation := e.ServiceLocationId } : BaseURLXml)) } := by
  unfold appendBaseUrls
  induction l generalizing m with
  | nil => simp
  | cons e l ih => simp [List.foldl, ih]

/-- A list without offending entries runs the loop to its end: every entry is
appended to the table under construction and the result is `""`. -/
theorem updateLoop_accept (old l : List serviceLocationEntrySpec) (g : Globals)
    (h : ∀ x ∈ l, ¬ offending x) :
    updateLoop old l g = ("", { g with serviceLocationMap := g.serviceLocationMap ++ l }) := by
  induction l generalizing g with
  | nil => simp [updateLoop]
  | cons e l ih =>
    have he : ¬ offending e := h e (List.mem_cons_self _ _)
    have h1 : ¬ e.ServiceLocationId = "" := fun c => he (Or.inl c)
    have h2 : ¬ e.ServiceLocationUri = "" := fun c => he (Or.inr c)
    have hl : ∀ x ∈ l, ¬ offending x := fun x hx => h x (List.mem_cons_of_mem _ hx)
    simp [updateLoop, h1, h2, ih _ hl]

/-- The loop stops at the first offending entry: it restores the saved table and
returns that entry's reason, whatever follows. -/
theorem updateLoop_reject (old pre post : List serviceLocationEntrySpec)
    (e : serviceLocationEntrySpec) (g : Globals)
    (hpre : ∀ x ∈ pre, ¬ offending x) (he : offending e) :
    updateLoop old (pre ++ e :: post) g
      = (rejection e, { g with serviceLocationMap := old }) := by
  induction pre generalizing g with
  | nil =>
    by_cases h1 : e.ServiceLocationId = ""
    · simp [updateLoop, rejection, h1]
    · have h2 : e.ServiceLocationUri = "" := he.resolve_left h1
      simp [updateLoop, rejection, h1, h2]
  | cons a pre ih =>
    have ha : ¬ offending a := hpre a (List.mem_cons_self _ _)
    have h1 : ¬ a.ServiceLocationId = "" := fun c => ha (Or.inl c)
    have h2 : ¬ a.ServiceLocationUri = "" := fun c => ha (Or.inr c)
    have hl : ∀ x ∈ pre, ¬ offending x := fun x hx => hpre x (List.mem_cons_of_mem _ hx)
    simp [updateLoop, h1, h2, ih _ hl]

theorem rejection_ne_empty (e : serviceLocationEntrySpec) : rejection e ≠ "" := by
  unfold rejection
  split <;> decide

/-- A list with an offending entry splits at the first one. -/
theorem split_at_first_offending (l : List serviceLocationEntrySpec)
    (h : ∃ x ∈ l, offending x) :
    ∃ pre e post, l = pre ++ e :: post ∧ (∀ x ∈ pre, ¬ offending x) ∧ offending e := by
  induction l with
  | nil => simp at h
  | cons a l ih =>
    by_cases ha : offending a
    · exact ⟨[], a, l, rfl, by simp, ha⟩
    · have h' : ∃ x ∈ l, offending x := by
        obtain ⟨x, hx, hox⟩ := h
        rcases List.mem_cons.mp hx with rfl | hx
        · exact absurd hox ha
        · exact ⟨x, hx, hox⟩
      obtain ⟨pre, e, post, hl, hpre, he⟩ := ih h'
      refine ⟨a :: pre, e, post, by simp [hl], ?_, he⟩
      intro x hx
      rcases List.mem_cons.mp hx with rfl | hx
      · exact ha
      · exact hpre x hx

/-- The two outcomes of `updateDefaultServiceLocationPriority`. -/
theorem updateDefaultServiceLocationPriority_cases (slm : contentSteeringConfigSpec)
    (g : Globals) :
    ((∀ x ∈ slm.ServiceLocations, ¬ offending x) ∧
        updateDefaultServiceLocationPriority slm g
          = ("", { g with serviceLocationMap := slm.ServiceLocations })) ∨
      ((∃ x ∈ slm.ServiceLocations, offending x) ∧
        (updateDefaultServiceLocationPriority slm g).1 ≠ "" ∧
        (updateDefaultServiceLocationPriority slm g).2 = g) := by
  by_cases h : ∃ x ∈ slm.ServiceLocations, offending x
  · right
    obtain ⟨pre, e, post, hl, hpre, he⟩ := split_at_first_offending _ h
    refine ⟨h, ?_, ?_⟩
    · simp only [updateDefaultServiceLocationPriority, hl, updateLoop_reject _ _ _ _ _ hpre he]
      exact rejection_ne_empty e
    · simp only [updateDefaultServiceLocationPriority, hl, updateLoop_reject _ _ _ _ _ hpre he]
  · left
    have hv : ∀ x ∈ slm.ServiceLocations, ¬ offending x := fun x hx hox => h ⟨x, hx, hox⟩
    refine ⟨hv, ?_⟩
    simp [updateDefaultServiceLocationPriority, updateLoop_accept _ _ _ hv]

/-- The outcomes of `updateDefaultContentSteeringConfig`: an accepted
configuration installs its three parts; a rejected one leaves the table alone. -/
theorem updateDefaultContentSteeringConfig_accepted (csc : contentSteeringConfigSpec)
    (g : Globals) (h : (updateDefaultContentSteeringConfig csc g).1 = "") :
    csc.ReloadUri ≠ "" ∧ 0 < csc.TTL ∧ (∀ x ∈ csc.ServiceLocations, ¬ offending x) ∧
      (updateDefaultContentSteeringConfig csc g).2
        = { dcsm_ttl := csc.TTL
            content_steering_server_url := csc.ReloadUri
            serviceLocationMap := csc.ServiceLocations } := by
  unfold updateDefaultContentSteeringConfig at h ⊢
  by_cases h1 : csc.ReloadUri.length = 0
  · simp [h1] at h
  · by_cases h2 : csc.TTL ≤ 0
    · simp [h1, h2] at h
    · simp only [h1, h2, if_false] at h ⊢
      have hne : csc.ReloadUri ≠ "" := fun c => h1 ((length_eq_zero_iff _).mpr c)
      refine ⟨hne, not_le.mp h2, ?_⟩
      rcases updateDefaultServiceLocationPriority_cases csc
        { dcsm_ttl := csc.TTL, content_steering_server_url := csc.ReloadUri,
          serviceLocationMap := g.serviceLocationMap } with ⟨hv, heq⟩ | ⟨_, hne', _⟩
      · exact ⟨hv, by rw [heq]⟩
      · exact absurd h hne'

/-- A configuration that passes the three checks is accepted and installed. -/
theorem updateDefaultContentSteeringConfig_of_valid (csc : contentSteeringConfigSpec)
    (g : Globals) (h1 : csc.ReloadUri ≠ "") (h2 : 0 < csc.TTL)
    (h3 : ∀ x ∈ csc.ServiceLocations, ¬ offending x) :
    updateDefaultContentSteeringConfig csc g
      = ("", { dcsm_ttl := csc.TTL
               content_steering_server_url := csc.ReloadUri
               serviceLocationMap := csc.ServiceLocations }) := by
  have h1' : ¬ csc.ReloadUri.length = 0 := fun c => h1 ((length_eq_zero_iff _).mp c)
  have h2' : ¬ csc.TTL ≤ 0 := not_le.mpr h2
  simp [updateDefaultContentSteeringConfig, h1', h2', updateDefaultServiceLocationPriority,
    updateLoop_accept _ _ _ h3]

/-- Whatever the outcome, the table after a call is the old table or the
submitted list, and in the second case the list has no offending entry. -/
theorem table_after_update (csc : contentSteeringConfigSpec) (g : Globals) :
    (updateDefaultContentSteeringConfig csc g).2.serviceLocationMap = g.serviceLocationMap ∨
      ((updateDefaultContentSteeringConfig csc g).2.serviceLocationMap = csc.ServiceLocations ∧
        ∀ x ∈ csc.ServiceLocations, ¬ offending x) := by
  unfold updateDefaultContentSteeringConfig
  by_cases h1 : csc.ReloadUri.length = 0
  · simp [h1]
  · by_cases h2 : csc.TTL ≤ 0
    · simp [h1, h2]
    · simp only [h1, h2, if_false]
      rcases updateDefaultServiceLocationPriority_cases csc
        { dcsm_ttl := csc.TTL, content_steering_server_url := csc.ReloadUri,
          serviceLocationMap := g.serviceLocationMap } with ⟨hv, heq⟩ | ⟨_, _, hsame⟩
      · right
        exact ⟨by rw [heq], hv⟩
      · left
        rw [hsame]

/-- A call has one of two outcomes: it is accepted and the table is the complete
submitted list, or it is rejected and the table is the one from before the call. -/
theorem update_outcome (csc : contentSteeringConfigSpec) (g : Globals) :
    ((updateDefaultContentSteeringConfig csc g).1 = "" ∧
        (updateDefaultContentSteeringConfig csc g).2.serviceLocationMap
          = csc.ServiceLocations) ∨
      ((updateDefaultContentSteeringConfig csc g).1 ≠ "" ∧
        (updateDefaultContentSteeringConfig csc g).2.serviceLocationMap
          = g.serviceLocationMap) := by
  by_cases hacc : (updateDefaultContentSteeringConfig csc g).1 = ""
  · left
    obtain ⟨_, _, _, hst⟩ := updateDefaultContentSteeringConfig_accepted csc g hacc
    exact ⟨hacc, by rw [hst]⟩
  · right
    refine ⟨hacc, ?_⟩
    unfold updateDefaultContentSteeringConfig at hacc ⊢
    by_cases h1 : csc.ReloadUri.length = 0
    · simp [h1]
    · by_cases h2 : csc.TTL ≤ 0
      · simp [h1, h2]
      · simp only [h1, h2, if_false] at hacc ⊢
        rcases updateDefaultServiceLocationPriority_cases csc
          { dcsm_ttl := csc.TTL, content_steering_server_url := csc.ReloadUri,
            serviceLocationMap := g.serviceLocationMap } with ⟨_, heq⟩ | ⟨_, _, hsame⟩
        · rw [heq] at hacc
          exact absurd rfl hacc
        · rw [hsame]

/-! ## Configuration update followed by manifest generation -/

/-- C1, as stated, fails: `emptyListConfig` is accepted from the start state, and
the following `generateDcsm` yields no manifest at all. -/
theorem accepted_empty_list_yields_no_manifest :
    (updateDefaultContentSteeringConfig emptyListConfig initialGlobals).1 = "" ∧
      ¬ ∃ m : dcsmSpec,
        generateDcsm id (updateDefaultContentSteeringConfig emptyListConfig initialGlobals).2
            "sid" "" "" = some m ∧
          m.SERVICE_LOCATION_PRIORITY
            = emptyListConfig.ServiceLocations.map (fun e => e.ServiceLocationId) := by
  refine ⟨by decide, ?_⟩
  rintro ⟨m, hm, _⟩
  have hnone :
      generateDcsm id (updateDefaultContentSteeringConfig emptyListConfig initialGlobals).2
        "sid" "" "" = none := by decide
  rw [hnone] at hm
  exact Option.noConfusion hm

/-- C1, amended: for every configuration `csc` with at least one service location
that `updateDefaultContentSteeringConfig` accepts from any live state `g`, a
following `generateDcsm` with any session id and hints returns the encoding of a
manifest whose `SERVICE_LOCATION_PRIORITY` is the list of the `ServiceLocationId`
values of `csc` in submitted order. -/
theorem accepted_config_priority_list (csc : contentSteeringConfigSpec) (g : Globals)
    (sid pw tp : String)
    (hacc : (updateDefaultContentSteeringConfig csc g).1 = "")
    (hne : csc.ServiceLocations ≠ []) :
    ∃ m : dcsmSpec,
      m.SERVICE_LOCATION_PRIORITY = csc.ServiceLocations.map (fun e => e.ServiceLocationId) ∧
        ∀ (β : Type) (marshal : dcsmSpec → β),
          generateDcsm marshal (updateDefaultContentSteeringConfig csc g).2 sid pw tp
            = some (marshal m) := by
  obtain ⟨_, _, _, hst⟩ := updateDefaultContentSteeringConfig_accepted csc g hacc
  refine ⟨{ VERSION := 1
            TTL := csc.TTL
            RELOAD_URI := csc.ReloadUri ++ "?sessionId=" ++ sid
            SERVICE_LOCATION_PRIORITY :=
              csc.ServiceLocations.map (fun e => e.ServiceLocationId) }, rfl, ?_⟩
  intro β marshal
  rw [hst]
  exact generateDcsm_of_ne_nil marshal _ sid pw tp hne

theorem accepted_config_priority_list_witness :
    (updateDefaultContentSteeringConfig sampleConfig initialGlobals).1 = "" ∧
      sampleConfig.ServiceLocations ≠ [] ∧
      ∃ m : dcsmSpec,
        m.SERVICE_LOCATION_PRIORITY
            = sampleConfig.ServiceLocations.map (fun e => e.ServiceLocationId) ∧
          ∀ (β : Type) (marshal : dcsmSpec → β),
            generateDcsm marshal (updateDefaultContentSteeringConfig sampleConfig initialGlobals).2
                "sid" "" "" = some (marshal m) :=
  ⟨by decide, by decide,
    accepted_config_priority_list sampleConfig initialGlobals "sid" "" "" (by decide) (by decide)⟩

/-- C2 fails on the code: from the live state `sampleGlobals`, the update with
`badEntryConfig` is rejected for its empty id and the table is restored, but the
reload URI and the TTL have already been overwritten with the rejected values, so
the manifest generated afterwards differs from the one generated before. -/
theorem rejected_update_overwrites_parameters :
    (updateDefaultContentSteeringConfig badEntryConfig sampleGlobals).1
        = "Empty ServiceLocation" ∧
      (updateDefaultContentSteeringConfig badEntryConfig sampleGlobals).2.serviceLocationMap
        = sampleGlobals.serviceLocationMap ∧
      sampleGlobals.content_steering_server_url = "http://localhost:2210/dash.dcsm" ∧
      (updateDefaultContentSteeringConfig badEntryConfig sampleGlobals).2.content_steering_server_url
        = "http://other/dash.dcsm" ∧
      sampleGlobals.dcsm_ttl = 100 ∧
      (updateDefaultContentSteeringConfig badEntryConfig sampleGlobals).2.dcsm_ttl = 5 ∧
      generateDcsm id sampleGlobals "sid" "" ""
        = some { VERSION := 1
                 TTL := 100
                 RELOAD_URI := "http://localhost:2210/dash.dcsm?sessionId=sid"
                 SERVICE_LOCATION_PRIORITY := ["baseurl_2", "baseurl_1"] } ∧
      generateDcsm id (updateDefaultContentSteeringConfig badEntryConfig sampleGlobals).2
          "sid" "" ""
        = some { VERSION := 1
                 TTL := 5
                 RELOAD_URI := "http://other/dash.dcsm?sessionId=sid"
                 SERVICE_LOCATION_PRIORITY := ["baseurl_2", "baseurl_1"] } := by
  decide

/-- C3: a configuration with an empty reload URI is rejected with
`"Empty RELOAD-URI config"`, one with a non-empty reload URI and a TTL that is
not positive with `"Non-positive TTL value"`, and in both cases the live table,
reload URI and TTL are the ones from before the call. -/
theorem parameter_rejections_leave_state (csc : contentSteeringConfigSpec) (g : Globals) :
    (csc.ReloadUri = "" →
        updateDefaultContentSteeringConfig csc g = ("Empty RELOAD-URI config", g)) ∧
      (csc.ReloadUri ≠ "" → csc.TTL ≤ 0 →
        updateDefaultContentSteeringConfig csc g = ("Non-positive TTL value", g)) := by
  constructor
  · intro h
    have h0 : csc.ReloadUri.length = 0 := (length_eq_zero_iff _).mpr h
    simp [updateDefaultContentSteeringConfig, h0]
  · intro h httl
    have h0 : ¬ csc.ReloadUri.length = 0 := fun c => h ((length_eq_zero_iff _).mp c)
    simp [updateDefaultContentSteeringConfig, h0, httl]

theorem parameter_rejections_leave_state_witness :
    updateDefaultContentSteeringConfig { sampleConfig with ReloadUri := "" } sampleGlobals
        = ("Empty RELOAD-URI config", sampleGlobals) ∧
      updateDefaultContentSteeringConfig { sampleConfig with TTL := 0 } sampleGlobals
        = ("Non-positive TTL value", sampleGlobals) :=
  ⟨(parameter_rejections_leave_state { sampleConfig with ReloadUri := "" } sampleGlobals).1 rfl,
    (parameter_rejections_leave_state { sampleConfig with TTL := 0 } sampleGlobals).2
      (by decide) (by decide)⟩

/-! ## Manifest generation -/

/-- C4: on a live state with a non-empty table, `generateDcsm` returns the
encoding of the manifest with `VERSION = 1`, `TTL` the live `dcsm_ttl`,
`RELOAD_URI` the live reload URI followed by `"?sessionId="` and the session id,
and `SERVICE_LOCATION_PRIORITY` the ids of the table in table order; calls that
differ only in the pathway and throughput hints return the same result. -/
theorem manifest_contents (g : Globals) (sid pw tp : String)
    (hne : g.serviceLocationMap ≠ []) (β : Type) (marshal : dcsmSpec → β) :
    generateDcsm marshal g sid pw tp
        = some (marshal
            { VERSION := 1
              TTL := g.dcsm_ttl
              RELOAD_URI := g.content_steering_server_url ++ "?sessionId=" ++ sid
              SERVICE_LOCATION_PRIORITY :=
                g.serviceLocationMap.map (fun e => e.ServiceLocationId) }) ∧
      ∀ pw2 tp2 : String,
        generateDcsm marshal g sid pw2 tp2 = generateDcsm marshal g sid pw tp := by
  refine ⟨generateDcsm_of_ne_nil marshal g sid pw tp hne, ?_⟩
  intro pw2 tp2
  rfl

theorem manifest_contents_witness :
    sampleGlobals.serviceLocationMap ≠ [] ∧
      generateDcsm id sampleGlobals "sid" "baseurl_1" "5000"
        = some { VERSION := 1
                 TTL := 100
                 RELOAD_URI := "http://localhost:2210/dash.dcsm?sessionId=sid"
                 SERVICE_LOCATION_PRIORITY := ["baseurl_2", "baseurl_1"] } ∧
      generateDcsm id sampleGlobals "sid" "" ""
        = generateDcsm id sampleGlobals "sid" "baseurl_1" "5000" :=
  ⟨by decide,
    (manifest_contents sampleGlobals "sid" "baseurl_1" "5000" (by decide) dcsmSpec id).1,
    (manifest_contents sampleGlobals "sid" "baseurl_1" "5000" (by decide) dcsmSpec id).2 "" ""⟩

/-- C5: `generateDcsm` returns nil exactly when the live table is empty, and in
the start state it returns nil for every session id and hints. -/
theorem no_configuration_iff_empty_table (β : Type) (marshal : dcsmSpec → β) (g : Globals)
    (sid pw tp : String) :
    (generateDcsm marshal g sid pw tp = none ↔ g.serviceLocationMap = []) ∧
      generateDcsm marshal initialGlobals sid pw tp = none := by
  refine ⟨⟨?_, generateDcsm_of_nil marshal g sid pw tp⟩,
    generateDcsm_of_nil marshal initialGlobals sid pw tp rfl⟩
  intro h
  by_contra hne
  rw [generateDcsm_of_ne_nil marshal g sid pw tp hne] at h
  exact Option.noConfusion h

/-! ## Document augmentation -/

/-- C6: let `d` be the document that `mpdBytes` parses to. On a non-empty table
`first :: rest`, `addContentSteeringInfoToMpd` returns the serialisation of the
document `d` with its `BaseURLs`
followed by one element per table entry in table order (`ServiceLocation` the
entry's id, `Value` its uri), with `ContentSteering.Value` the live steering
manifest URL, `DefaultServiceLocation` the id of `first`, `QueryBeforeStart`
`"true"`, and every other field as in `d`; the number of `BaseURLs` is the sum of
the two lengths. On an empty table it returns nil. -/
theorem augmented_document {α β : Type} (unmarshal : α → Option mpdXml)
    (marshalIndent : mpdXml → Option β) (g : Globals) (mpdBytes : α) (d : mpdXml)
    (hd : unmarshal mpdBytes = some d) :
    (∀ first rest, g.serviceLocationMap = first :: rest →
        addContentSteeringInfoToMpd unmarshal marshalIndent g mpdBytes
            = marshalIndent
                { d with
                  BaseURLs :=
                    d.BaseURLs ++
                      g.serviceLocationMap.map (fun e =>
                        ({ XMLName := { Space := "", Local := "" }
                           Value := e.ServiceLocationUri
                           ServiceLocation := e.ServiceLocationId } : BaseURLXml))
                  ContentSteering :=
                    { d.ContentSteering with
                      Value := g.content_steering_server_url
                      DefaultServiceLocation := first.ServiceLocationId
                      QueryBeforeStart := "true" } } ∧
          (d.BaseURLs ++
              g.serviceLocationMap.map (fun e =>
                ({ XMLName := { Space := "", Local := "" }
                   Value := e.ServiceLocationUri
                   ServiceLocation := e.ServiceLocationId } : BaseURLXml))).length
            = d.BaseURLs.length + g.serviceLocationMap.length) ∧
      (g.serviceLocationMap = [] →
        addContentSteeringInfoToMpd unmarshal marshalIndent g mpdBytes = none) := by
  constructor
  · intro first rest htab
    refine ⟨?_, by simp⟩
    simp only [addContentSteeringInfoToMpd, hd, getBaseUrls, htab, appendBaseUrls_eq,
      addContentSteeringInfo]
  · intro htab
    simp only [addContentSteeringInfoToMpd, hd, getBaseUrls, htab]

theorem augmented_document_witness :
    addContentSteeringInfoToMpd (fun _ : Unit => some sampleMpd) some sampleGlobals ()
        = some
            { sampleMpd with
              BaseURLs :=
                [ { XMLName := { Space := "urn:mpeg:dash:schema:mpd:2011", Local := "BaseURL" }
                    Value := "https://origin/"
                    ServiceLocation := "" },
                  { XMLName := { Space := "", Local := "" }
                    Value := "https://bzhang-zencoder-test.s3.us-west-2.amazonaws.com/bbb2/"
                    ServiceLocation := "baseurl_2" },
                  { XMLName := { Space := "", Local := "" }
                    Value := "https://bzhang-zencoder-test.s3.us-west-2.amazonaws.com/bbb/"
                    ServiceLocation := "baseurl_1" } ]
              ContentSteering :=
                { sampleMpd.ContentSteering with
                  Value := "http://localhost:2210/dash.dcsm"
                  DefaultServiceLocation := "baseurl_2"
                  QueryBeforeStart := "true" } } ∧
      addContentSteeringInfoToMpd (fun _ : Unit => some sampleMpd) some initialGlobals ()
        = none :=
  ⟨((augmented_document (fun _ : Unit => some sampleMpd) some sampleGlobals () sampleMpd
        rfl).1 _ _ rfl).1,
    (augmented_document (fun _ : Unit => some sampleMpd) some initialGlobals () sampleMpd
        rfl).2 rfl⟩

/-! ## Properties of the configuration update -/

/-- C7: when `updateDefaultContentSteeringConfig csc` is accepted from a live
state `g`, calling it again on the resulting state is accepted too and leaves
that state (table, reload URI, TTL) as it is. -/
theorem update_twice_eq_once (csc : contentSteeringConfigSpec) (g : Globals)
    (hacc : (updateDefaultContentSteeringConfig csc g).1 = "") :
    updateDefaultContentSteeringConfig csc (updateDefaultContentSteeringConfig csc g).2
      = ("", (updateDefaultContentSteeringConfig csc g).2) := by
  obtain ⟨h1, h2, h3, hst⟩ := updateDefaultContentSteeringConfig_accepted csc g hacc
  rw [hst]
  exact updateDefaultContentSteeringConfig_of_valid csc _ h1 h2 h3

theorem update_twice_eq_once_witness :
    (updateDefaultContentSteeringConfig sampleConfig initialGlobals).1 = "" ∧
      updateDefaultContentSteeringConfig sampleConfig
          (updateDefaultContentSteeringConfig sampleConfig initialGlobals).2
        = ("", (updateDefaultContentSteeringConfig sampleConfig initialGlobals).2) :=
  ⟨by decide, update_twice_eq_once sampleConfig initialGlobals (by decide)⟩

/-- C8: in every state reachable from the start state by calls of
`updateDefaultContentSteeringConfig`, accepted or rejected, (1) every entry of the
live table has a non-empty id and a non-empty uri; (2) the table is empty or is
the complete list of a configuration that was accepted from a reachable state;
(3) a further call with any candidate either is accepted and leaves the
candidate's complete list as the table, or is rejected and leaves the table as it
was, so no partially built list is ever live. -/
theorem reachable_table_valid (g : Globals) (hr : Reachable g) :
    (∀ e ∈ g.serviceLocationMap, e.ServiceLocationId ≠ "" ∧ e.ServiceLocationUri ≠ "") ∧
      (g.serviceLocationMap = [] ∨
        ∃ (g0 : Globals) (csc : contentSteeringConfigSpec),
          Reachable g0 ∧ (updateDefaultContentSteeringConfig csc g0).1 = "" ∧
            g.serviceLocationMap = csc.ServiceLocations) ∧
      ∀ csc : contentSteeringConfigSpec,
        ((updateDefaultContentSteeringConfig csc g).1 = "" ∧
            (updateDefaultContentSteeringConfig csc g).2.serviceLocationMap
              = csc.ServiceLocations) ∨
          ((updateDefaultContentSteeringConfig csc g).1 ≠ "" ∧
            (updateDefaultContentSteeringConfig csc g).2.serviceLocationMap
              = g.serviceLocationMap) := by
  refine ⟨?_, ?_, fun csc => update_outcome csc g⟩
  · induction hr with
    | init =>
      intro e he
      simp [initialGlobals] at he
    | step g csc _ ih =>
      intro e he
      rcases table_after_update csc g with hsame | ⟨hnew, hv⟩
      · rw [hsame] at he
        exact ih e he
      · rw [hnew] at he
        have hno := hv e he
        exact ⟨fun c => hno (Or.inl c), fun c => hno (Or.inr c)⟩
  · induction hr with
    | init => exact Or.inl rfl
    | step g csc hg ih =>
      rcases update_outcome csc g with ⟨hacc, htab⟩ | ⟨_, htab⟩
      · exact Or.inr ⟨g, csc, hg, hacc, htab⟩
      · rw [htab]
        exact ih

theorem reachable_table_valid_witness :
    Reachable (updateDefaultContentSteeringConfig sampleConfig initialGlobals).2 ∧
      (⟨"baseurl_1", "https://bzhang-zencoder-test.s3.us-west-2.amazonaws.com/bbb/"⟩ :
          serviceLocationEntrySpec) ∈
        (updateDefaultContentSteeringConfig sampleConfig initialGlobals).2.serviceLocationMap ∧
      (("baseurl_1" : String) ≠ "" ∧
        ("https://bzhang-zencoder-test.s3.us-west-2.amazonaws.com/bbb/" : String) ≠ "") ∧
      (updateDefaultContentSteeringConfig badEntryConfig
          (updateDefaultContentSteeringConfig sampleConfig initialGlobals).2).1 ≠ "" ∧
      (((updateDefaultContentSteeringConfig badEntryConfig
              (updateDefaultContentSteeringConfig sampleConfig initialGlobals).2).1 = "" ∧
            (updateDefaultContentSteeringConfig badEntryConfig
                (updateDefaultContentSteeringConfig sampleConfig initialGlobals).2).2.serviceLocationMap
              = badEntryConfig.ServiceLocations) ∨
          ((updateDefaultContentSteeringConfig badEntryConfig
              (updateDefaultContentSteeringConfig sampleConfig initialGlobals).2).1 ≠ "" ∧
            (updateDefaultContentSteeringConfig badEntryConfig
                (updateDefaultContentSteeringConfig sampleConfig initialGlobals).2).2.serviceLocationMap
              = (updateDefaultContentSteeringConfig sampleConfig
                  initialGlobals).2.serviceLocationMap)) :=
  ⟨Reachable.step initialGlobals sampleConfig Reachable.init, by decide,
    (reachable_table_valid (updateDefaultContentSteeringConfig sampleConfig initialGlobals).2
        (Reachable.step initialGlobals sampleConfig Reachable.init)).1
      ⟨"baseurl_1", "https://bzhang-zencoder-test.s3.us-west-2.amazonaws.com/bbb/"⟩
      (by decide),
    by decide,
    (reachable_table_valid (updateDefaultContentSteeringConfig sampleConfig initialGlobals).2
        (Reachable.step initialGlobals sampleConfig Reachable.init)).2.2 badEntryConfig⟩

/-- C9: when the submitted list has an entry with an empty id or uri, it splits
as `pre ++ e :: post` with `e` the first such entry, and
`updateDefaultServiceLocationPriority` returns the reason of `e`
(`"Empty ServiceLocation"` when its id is empty, `"Empty ServiceLocationUri"`
otherwise); the same reason is returned for any other entries after `e`, any
reload URI and TTL, and any live state. -/
theorem first_offending_entry_decides (slm : contentSteeringConfigSpec) (g : Globals)
    (hbad : ∃ x ∈ slm.ServiceLocations, offending x) :
    ∃ pre e post,
      slm.ServiceLocations = pre ++ e :: post ∧ (∀ x ∈ pre, ¬ offending x) ∧ offending e ∧
        (updateDefaultServiceLocationPriority slm g).1
          = (if e.ServiceLocationId = "" then "Empty ServiceLocation"
              else "Empty ServiceLocationUri") ∧
        ∀ (post2 : List serviceLocationEntrySpec) (ttl : Int) (uri : String) (g2 : Globals),
          (updateDefaultServiceLocationPriority
              { TTL := ttl, ReloadUri := uri, ServiceLocations := pre ++ e :: post2 } g2).1
            = (updateDefaultServiceLocationPriority slm g).1 := by
  obtain ⟨pre, e, post, hl, hpre, he⟩ := split_at_first_offending _ hbad
  have hmain : (updateDefaultServiceLocationPriority slm g).1 = rejection e := by
    simp only [updateDefaultServiceLocationPriority, hl, updateLoop_reject _ _ _ _ _ hpre he]
  refine ⟨pre, e, post, hl, hpre, he, hmain, ?_⟩
  intro post2 ttl uri g2
  rw [hmain]
  simp only [updateDefaultServiceLocationPriority, updateLoop_reject _ _ _ _ _ hpre he]

theorem first_offending_entry_decides_witness :
    (∃ x ∈ badEntryConfig.ServiceLocations, offending x) ∧
      ∃ pre e post,
        badEntryConfig.ServiceLocations = pre ++ e :: post ∧
          (∀ x ∈ pre, ¬ offending x) ∧ offending e ∧
          (updateDefaultServiceLocationPriority badEntryConfig sampleGlobals).1
            = (if e.ServiceLocationId = "" then "Empty ServiceLocation"
                else "Empty ServiceLocationUri") ∧
          ∀ (post2 : List serviceLocationEntrySpec) (ttl : Int) (uri : String) (g2 : Globals),
            (updateDefaultServiceLocationPriority
                { TTL := ttl, ReloadUri := uri, ServiceLocations := pre ++ e :: post2 } g2).1
              = (updateDefaultServiceLocationPriority badEntryConfig sampleGlobals).1 :=
  ⟨⟨⟨"", "https://cdn-b/"⟩, by decide, Or.inl rfl⟩,
    first_offending_entry_decides badEntryConfig sampleGlobals
      ⟨⟨"", "https://cdn-b/"⟩, by decide, Or.inl rfl⟩⟩

/-- C10: a configuration with a non-empty reload URI, a positive TTL and no
service location is accepted from every live state, installs an empty table, and
a following `generateDcsm` returns nil. -/
theorem empty_list_accepted (csc : contentSteeringConfigSpec) (g : Globals)
    (huri : csc.ReloadUri ≠ "") (httl : 0 < csc.TTL) (hnil : csc.ServiceLocations = []) :
    (updateDefaultContentSteeringConfig csc g).1 = "" ∧
      (updateDefaultContentSteeringConfig csc g).2.serviceLocationMap = [] ∧
      ∀ (β : Type) (marshal : dcsmSpec → β) (sid pw tp : String),
        generateDcsm marshal (updateDefaultContentSteeringConfig csc g).2 sid pw tp = none := by
  have hv : ∀ x ∈ csc.ServiceLocations, ¬ offending x := by
    intro x hx
    rw [hnil] at hx
    simp at hx
  have hst := updateDefaultContentSteeringConfig_of_valid csc g huri httl hv
  rw [hst]
  refine ⟨rfl, hnil, ?_⟩
  intro β marshal sid pw tp
  exact generateDcsm_of_nil marshal _ sid pw tp hnil

theorem empty_list_accepted_witness :
    emptyListConfig.ReloadUri ≠ "" ∧ 0 < emptyListConfig.TTL ∧
      emptyListConfig.ServiceLocations = [] ∧ sampleGlobals.serviceLocationMap ≠ [] ∧
      (updateDefaultContentSteeringConfig emptyListConfig sampleGlobals).1 = "" ∧
      (updateDefaultContentSteeringConfig emptyListConfig sampleGlobals).2.serviceLocationMap
        = [] ∧
      ∀ (β : Type) (marshal : dcsmSpec → β) (sid pw tp : String),
        generateDcsm marshal (updateDefaultContentSteeringConfig emptyListConfig sampleGlobals).2
          sid pw tp = none :=
  ⟨by decide, by decide, rfl, by decide,
    empty_list_accepted emptyListConfig sampleGlobals (by decide) (by decide) rfl⟩

end SteeringServer
